import Mathlib

/-!
Verification of the pay-per-vote backend (`backend/server.js`) and its React
frontend. The embedding models the SQLite ledger (candidates, transactions,
settings) as lists/records, and each HTTP handler as a pure function from the
database state and request inputs to a response together with the new state.
External collaborators (the Stripe SDK, the SQLite transaction primitive) are
modelled by explicit parameters: the outcome of a Stripe call is passed in as
an `Option` (with `none` standing for a thrown exception caught by the
handler's `catch`), and `db.transaction(...)` — better-sqlite3's atomic
transaction wrapper — is modelled as a single state transition, which is the
guarantee that primitive provides.

JS numeric inputs are modelled as `Option Int`: `none` stands for a value on
which `Number(...)` / `Number.parseInt(...)` yields `NaN` (non-numeric input),
`some n` for a finite integer result.
-/

namespace VoteApp

/-- A row of the `candidates` table: `id INTEGER PRIMARY KEY`,
`name TEXT NOT NULL UNIQUE`, `tally INTEGER NOT NULL DEFAULT 0`. -/
structure Candidate where
  id : Int
  name : String
  tally : Int
  deriving Repr, DecidableEq

/-- A row of the `transactions` table: `session_id TEXT UNIQUE`,
`candidate_id INTEGER`, `votes INTEGER`, `currency TEXT`,
`amount_total INTEGER`, `paid INTEGER NOT NULL DEFAULT 0`. -/
structure Txn where
  session_id : String
  candidate_id : Int
  votes : Int
  currency : String
  amount_total : Int
  paid : Bool
  deriving Repr, DecidableEq

/-- The singleton `settings` row: `question TEXT`, `glow TEXT`. -/
structure Settings where
  question : String
  glow : String
  deriving Repr, DecidableEq

/-- The SQLite database state: the three tables created at startup. -/
structure DB where
  candidates : List Candidate
  transactions : List Txn
  settings : Settings
  deriving Repr, DecidableEq

/-- `SELECT * FROM transactions WHERE session_id=?` -/
def findTxn (db : DB) (sid : String) : Option Txn :=
  db.transactions.find? (fun t => t.session_id = sid)

/-- `SELECT * FROM candidates WHERE id=?` -/
def findCand (db : DB) (cid : Int) : Option Candidate :=
  db.candidates.find? (fun c => c.id = cid)

/-- `INSERT INTO transactions (...) VALUES (?,?,?,?,?,0)` — appends a row. -/
def insertTxn (db : DB) (t : Txn) : DB :=
  { db with transactions := db.transactions ++ [t] }

/-- `UPDATE transactions SET paid=1 WHERE session_id=?` -/
def markPaid (db : DB) (sid : String) : DB :=
  { db with transactions :=
      db.transactions.map (fun t => if t.session_id = sid then { t with paid := true } else t) }

/-- `UPDATE candidates SET tally=tally+? WHERE id=?` -/
def incTally (db : DB) (cid v : Int) : DB :=
  { db with candidates :=
      db.candidates.map (fun c => if c.id = cid then { c with tally := c.tally + v } else c) }

/-- The body of `db.transaction(()=>{ mark.run(...); inc.run(trx.votes, trx.candidate_id); })`:
both updates applied as one atomic unit (better-sqlite3 transaction semantics). -/
def confirmTxn (db : DB) (sid : String) (trx : Txn) : DB :=
  incTally (markPaid db sid) trx.candidate_id trx.votes

/-- The paid flag of the transaction with the given session id, if any. -/
def txnPaid (db : DB) (sid : String) : Option Bool :=
  (findTxn db sid).map (fun t => t.paid)

/-- The tally of the candidate with the given id, if any. -/
def tallyOf (db : DB) (cid : Int) : Option Int :=
  (findCand db cid).map (fun c => c.tally)

/-- Backend vote normalization (`/api/create-checkout-session`):
`const votesRaw = Number.parseInt(req.body?.votes, 10);`
`const votes = Number.isFinite(votesRaw) && votesRaw > 0 ? votesRaw : 1;` -/
def normVotes (votesIn : Option Int) : Int :=
  match votesIn with
  | some n => if 0 < n then n else 1
  | none => 1

/-- JS `String.prototype.toUpperCase()`, modelled character-wise (the ASCII
currency codes involved here are unaffected by locale subtleties). -/
def toUpperStr (s : String) : String := ⟨s.data.map Char.toUpper⟩

/-- Backend currency normalization:
`String(req.body?.currency || 'USD').toUpperCase()` — an absent or empty
currency falls back to `'USD'`, anything else is uppercased. -/
def normCurrency (currencyIn : Option String) : String :=
  match currencyIn with
  | none => "USD"
  | some s => if s = "" then "USD" else toUpperStr s

/-- `function priceMinor(votes){ const base = Number(process.env.VOTE_PRICE_MINOR || 100);
return base * Math.max(1, Number(votes||1)); }` — over an integer argument,
`Number(votes||1)` maps `0` to `1` and is the identity otherwise. -/
def priceMinor (base v : Int) : Int :=
  base * max 1 (if v = 0 then 1 else v)

/-- The Stripe checkout session returned by `stripe.checkout.sessions.create`. -/
structure StripeSession where
  id : String
  url : String
  deriving Repr, DecidableEq

/-- Responses of `POST /api/create-checkout-session`. -/
inductive CheckoutResp where
  /-- 400 `Stripe is not configured on the server.` -/
  | stripeNotConfigured
  /-- 400 `Invalid candidateId` -/
  | invalidCandidateId
  /-- 404 `Candidate not found` -/
  | candidateNotFound
  /-- 200 `{ id: session.id, url: session.url }` -/
  | success (id url : String)
  /-- 500 `Failed to create checkout session` (the catch block) -/
  | serverError
  deriving Repr, DecidableEq

/-- `POST /api/create-checkout-session`. `stripeConfigured` models the
module-level `stripe` handle being non-null; `stripeCreate` models the result
of `await stripe.checkout.sessions.create(...)` (`none` = the call threw, so
control reaches the catch block and nothing is inserted). -/
def createCheckout (stripeConfigured : Bool) (base : Int) (db : DB)
    (candidateIdIn : Option Int) (votesIn : Option Int) (currencyIn : Option String)
    (stripeCreate : Option StripeSession) : CheckoutResp × DB :=
  let votes := normVotes votesIn
  let currency := normCurrency currencyIn
  if stripeConfigured = false then (.stripeNotConfigured, db)
  else
    match candidateIdIn with
    | none => (.invalidCandidateId, db)
    | some candidateId =>
      match findCand db candidateId with
      | none => (.candidateNotFound, db)
      | some cand =>
        let amount := priceMinor base votes
        match stripeCreate with
        | none => (.serverError, db)
        | some session =>
          (.success session.id session.url,
            insertTxn db { session_id := session.id, candidate_id := cand.id,
                           votes := votes, currency := currency,
                           amount_total := amount, paid := false })

/-- Responses of `GET /api/verify-session`. -/
inductive VerifyResp where
  /-- 400 `Missing session_id` -/
  | missingSessionId
  /-- 404 `Unknown session` -/
  | unknownSession
  /-- 200 `{ ok:true, alreadyCounted:true }` -/
  | alreadyCounted
  /-- 400 `Stripe not configured` -/
  | stripeNotConfigured
  /-- 200 `{ ok:true, counted:true }` -/
  | counted
  /-- 200 `{ ok:false, paid:false }` -/
  | notPaid
  /-- 500 `Verification failed` (the catch block) -/
  | verifyError
  deriving Repr, DecidableEq

/-- `GET /api/verify-session`. `retrieve` models
`(await stripe.checkout.sessions.retrieve(...)).payment_status` (`none` = the
retrieve threw, so control reaches the catch block). The branch order follows
the source: session id presence, transaction lookup, paid-flag check, stripe
handle check, provider query, then the atomic mark-paid + increment. -/
def verifySession (db : DB) (sessionIdIn : Option String) (stripeConfigured : Bool)
    (retrieve : Option String) : VerifyResp × DB :=
  match sessionIdIn with
  | none => (.missingSessionId, db)
  | some session_id =>
    match findTxn db session_id with
    | none => (.unknownSession, db)
    | some trx =>
      if trx.paid = true then (.alreadyCounted, db)
      else if stripeConfigured = false then (.stripeNotConfigured, db)
      else
        match retrieve with
        | none => (.verifyError, db)
        | some payment_status =>
          if payment_status = "paid" then (.counted, confirmTxn db session_id trx)
          else (.notPaid, db)

/-- A Stripe webhook event as produced by `stripe.webhooks.constructEvent`:
its `type` and the `id` of `event.data.object` (the checkout session id). -/
structure StripeEvent where
  type : String
  sessionId : String
  deriving Repr, DecidableEq

/-- Responses of `POST /api/stripe/webhook`. -/
inductive WebhookResp where
  /-- 200 `{ received:true, note:'webhook not configured' }` -/
  | receivedNotConfigured
  /-- 400 `Webhook Error: ...` (constructEvent threw) -/
  | sigError
  /-- 200 `{ received:true }` -/
  | received
  deriving Repr, DecidableEq

/-- JS truthiness of `process.env.STRIPE_WEBHOOK_SECRET`: unset or empty is falsy. -/
def secretTruthy (secret : Option String) : Bool :=
  match secret with
  | none => false
  | some s => decide (s ≠ "")

/-- `POST /api/stripe/webhook`. `constructEvent` models the result of
`stripe.webhooks.constructEvent(req.body, sig, secret)` over the raw body
(`none` = it threw: malformed or unverifiable signature → 400). When the
secret or the stripe handle is missing the handler returns
`{ received:true, note:'webhook not configured' }` before touching anything. -/
def webhook (secret : Option String) (stripeConfigured : Bool) (db : DB)
    (constructEvent : Option StripeEvent) : WebhookResp × DB :=
  if secretTruthy secret = false ∨ stripeConfigured = false then
    (.receivedNotConfigured, db)
  else
    match constructEvent with
    | none => (.sigError, db)
    | some event =>
      if event.type = "checkout.session.completed" then
        match findTxn db event.sessionId with
        | some trx =>
          if trx.paid = false then (.received, confirmTxn db event.sessionId trx)
          else (.received, db)
        | none => (.received, db)
      else (.received, db)

/-- Responses of `POST /api/admin/settings`. -/
inductive AdminResp where
  /-- 401 `Unauthorized` -/
  | unauthorized
  /-- 200 `{ ok:true }` -/
  | ok
  deriving Repr, DecidableEq

/-- `POST /api/admin/settings`. Rejects unless `ADMIN_TOKEN` is non-empty and
the `Authorization` header equals `Bearer <ADMIN_TOKEN>`; otherwise runs
`UPDATE settings SET question=COALESCE(?,question), glow=COALESCE(?,glow)
WHERE id=1` — a `none` (SQL NULL) field keeps its previous value. -/
def adminSettings (adminToken auth : String) (db : DB)
    (question glow : Option String) : AdminResp × DB :=
  if adminToken = "" ∨ auth ≠ "Bearer " ++ adminToken then (.unauthorized, db)
  else
    (.ok, { db with settings :=
      { question := question.getD db.settings.question,
        glow := glow.getD db.settings.glow } })

/-- `GET /api/tally`: `SELECT id,name,tally FROM candidates ORDER BY id ASC`. -/
def tallyReader (db : DB) : List Candidate :=
  db.candidates.mergeSort (fun a b => a.id ≤ b.id)

/-- Candidate seeding at startup (when the table is empty): each seeded name
becomes a row with an autoincrement id and the schema default `tally = 0`. -/
def seedCandidates (names : List String) : List Candidate :=
  names.enum.map (fun p => { id := (p.1 : Int) + 1, name := p.2, tally := 0 })

/-- The frontend's supported-currency list (`currencies` in the React app). -/
def supportedCurrencies : List String :=
  ["USD", "CAD", "EUR", "GBP", "AUD", "NZD", "JPY", "AED", "SAR", "INR",
   "NGN", "ZAR", "BRL", "MXN", "CHF", "SEK", "NOK", "DKK", "PLN", "RON",
   "TRY", "ILS", "HKD", "SGD", "CZK"]

/-- Frontend `isValidCurrency(c, set)`: `set.includes(String(c||'').toUpperCase())`. -/
def isValidCurrency (c : String) (supported : List String) : Bool :=
  supported.contains (toUpperStr c)

/-- Frontend `normalizeVotes(v)`: `Number(v)`; non-finite or `< 1` becomes `1`,
otherwise `Math.floor(n)` (the identity on the integers modelled here). -/
def normalizeVotes (v : Option Int) : Int :=
  match v with
  | none => 1
  | some n => if n < 1 then 1 else n

/-- What the frontend's `createCheckout` click handler does before any network
request: the candidate-selection guard, then the currency guard, then the
request body it would POST to the backend. -/
inductive FrontendAction where
  /-- `setMessage('Pick YES or NO.')`, no request sent -/
  | pickMessage
  /-- `setMessage('Unsupported currency.')`, no request sent -/
  | unsupportedCurrencyMessage
  /-- `fetch('/api/create-checkout-session', { body: {...} })` -/
  | sendRequest (candidateId : Int) (votes : Int) (currency : String)
  deriving Repr, DecidableEq

/-- The frontend `createCheckout` handler up to the point it sends (or refuses
to send) the HTTP request. -/
def createCheckoutFrontend (choiceId : Option Int) (votes : Option Int)
    (currency : String) : FrontendAction :=
  match choiceId with
  | none => .pickMessage
  | some cid =>
    if isValidCurrency currency supportedCurrencies = false then
      .unsupportedCurrencyMessage
    else
      .sendRequest cid (normalizeVotes votes) currency

/-- One server-side request-handling step: the four state-touching routes. -/
inductive Step : DB → DB → Prop where
  | checkout (sc : Bool) (base : Int) (db : DB) (cid v : Option Int)
      (cur : Option String) (s : Option StripeSession) :
      Step db (createCheckout sc base db cid v cur s).2
  | verify (db : DB) (sid : Option String) (sc : Bool) (st : Option String) :
      Step db (verifySession db sid sc st).2
  | hook (secret : Option String) (sc : Bool) (db : DB) (ev : Option StripeEvent) :
      Step db (webhook secret sc db ev).2
  | admin (tok auth : String) (db : DB) (q g : Option String) :
      Step db (adminSettings tok auth db q g).2

/-- Invariant: every transaction row carries a positive vote count. -/
def TxnsOK (db : DB) : Prop :=
  ∀ t ∈ db.transactions, 1 ≤ t.votes

/-- Invariant: every candidate tally is non-negative. -/
def TalliesOK (db : DB) : Prop :=
  ∀ c ∈ db.candidates, 0 ≤ c.tally

/-! ### Helper lemmas -/

theorem normVotes_ge_one (v : Option Int) : 1 ≤ normVotes v := by
  cases v with
  | none => simp [normVotes]
  | some n =>
    simp only [normVotes]
    split <;> omega

theorem findTxn_markPaid (db : DB) (sid : String) :
    findTxn (markPaid db sid) sid
      = (findTxn db sid).map (fun t => { t with paid := true }) := by
  show List.find? (fun t => t.session_id = sid)
      (db.transactions.map
        (fun t => if t.session_id = sid then { t with paid := true } else t))
    = (db.transactions.find? (fun t => t.session_id = sid)).map
        (fun t => { t with paid := true })
  induction db.transactions with
  | nil => rfl
  | cons t ts ih =>
    by_cases h : t.session_id = sid
    · simp [List.find?, h]
    · simp [List.find?, h, ih]

theorem findTxn_incTally (db : DB) (cid v : Int) (sid : String) :
    findTxn (incTally db cid v) sid = findTxn db sid := rfl

theorem findCand_markPaid (db : DB) (sid : String) (cid : Int) :
    findCand (markPaid db sid) cid = findCand db cid := rfl

theorem txnPaid_confirmTxn (db : DB) (sid : String) (trx trx0 : Txn)
    (h : findTxn db sid = some trx0) :
    txnPaid (confirmTxn db sid trx) sid = some true := by
  unfold txnPaid confirmTxn
  rw [findTxn_incTally, findTxn_markPaid, h]
  rfl

theorem tallyOf_incTally (db : DB) (cid v : Int) :
    tallyOf (incTally db cid v) cid = (tallyOf db cid).map (fun t => t + v) := by
  show Option.map (fun c => c.tally)
      (List.find? (fun c => c.id = cid)
        (db.candidates.map
          (fun c => if c.id = cid then { c with tally := c.tally + v } else c)))
    = Option.map (fun t => t + v)
        (Option.map (fun c => c.tally) (db.candidates.find? (fun c => c.id = cid)))
  induction db.candidates with
  | nil => rfl
  | cons c cs ih =>
    by_cases h : c.id = cid
    · simp [List.find?, h]
    · rw [List.map_cons, List.find?_cons_of_neg _ (by simp [h]),
          List.find?_cons_of_neg _ (by simpa using h)]
      exact ih

theorem tallyOf_confirmTxn (db : DB) (sid : String) (trx : Txn) :
    tallyOf (confirmTxn db sid trx) trx.candidate_id
      = (tallyOf db trx.candidate_id).map (fun t => t + trx.votes) := by
  unfold confirmTxn
  rw [tallyOf_incTally]
  rfl

/-- `GET /api/verify-session` either leaves the state untouched or applies the
atomic confirm (mark paid + increment) to an unpaid transaction it found. -/
theorem verifySession_state (db : DB) (sidIn : Option String) (sc : Bool)
    (st : Option String) :
    (verifySession db sidIn sc st).2 = db
    ∨ ∃ sid trx, sidIn = some sid ∧ findTxn db sid = some trx ∧ trx.paid = false ∧
        (verifySession db sidIn sc st).2 = confirmTxn db sid trx := by
  unfold verifySession
  cases sidIn with
  | none => left; rfl
  | some sid =>
    cases h : findTxn db sid with
    | none => left; simp [h]
    | some trx =>
      by_cases hp : trx.paid = true
      · left; simp [h, hp]
      · by_cases hsc : sc = false
        · left; simp [h, hp, hsc]
        · cases st with
          | none => left; simp [h, hp, hsc]
          | some ps =>
            by_cases hps : ps = "paid"
            · right
              exact ⟨sid, trx, rfl, h, by simpa using hp, by simp [h, hp, hsc, hps]⟩
            · left; simp [h, hp, hsc, hps]

/-- `POST /api/stripe/webhook` either leaves the state untouched or applies the
atomic confirm to an unpaid transaction matching the event's session id. -/
theorem webhook_state (secret : Option String) (sc : Bool) (db : DB)
    (ev : Option StripeEvent) :
    (webhook secret sc db ev).2 = db
    ∨ ∃ e trx, ev = some e ∧ findTxn db e.sessionId = some trx ∧ trx.paid = false ∧
        (webhook secret sc db ev).2 = confirmTxn db e.sessionId trx := by
  unfold webhook
  by_cases hcfg : secretTruthy secret = false ∨ sc = false
  · left; simp [hcfg]
  · cases ev with
    | none => left; simp [hcfg]
    | some e =>
      by_cases hty : e.type = "checkout.session.completed"
      · cases h : findTxn db e.sessionId with
        | none => left; simp [hcfg, hty, h]
        | some trx =>
          by_cases hp : trx.paid = false
          · right
            exact ⟨e, trx, rfl, h, hp, by simp [hcfg, hty, h, hp]⟩
          · left; simp [hcfg, hty, h, hp]
      · left; simp [hcfg, hty]

/-- `POST /api/admin/settings` either leaves the state untouched or rewrites
only the settings row. -/
theorem adminSettings_state (tok auth : String) (db : DB) (q g : Option String) :
    (adminSettings tok auth db q g).2 = db
    ∨ ∃ s, (adminSettings tok auth db q g).2 = { db with settings := s } := by
  unfold adminSettings
  by_cases h : tok = "" ∨ auth ≠ "Bearer " ++ tok
  · left; simp [h]
  · right
    refine ⟨{ question := q.getD db.settings.question,
              glow := g.getD db.settings.glow }, ?_⟩
    simp [h]

/-- `POST /api/create-checkout-session` either leaves the state untouched or
inserts exactly one transaction row carrying a positive vote count. -/
theorem createCheckout_state (sc : Bool) (base : Int) (db : DB)
    (cid v : Option Int) (cur : Option String) (s : Option StripeSession) :
    (createCheckout sc base db cid v cur s).2 = db
    ∨ ∃ t, 1 ≤ t.votes ∧ (createCheckout sc base db cid v cur s).2 = insertTxn db t := by
  unfold createCheckout
  by_cases hsc : sc = false
  · left; simp [hsc]
  · cases cid with
    | none => left; simp [hsc]
    | some candidateId =>
      cases h : findCand db candidateId with
      | none => left; simp [hsc, h]
      | some cand =>
        cases s with
        | none => left; simp [hsc, h]
        | some session =>
          right
          refine ⟨{ session_id := session.id, candidate_id := cand.id,
                    votes := normVotes v, currency := normCurrency cur,
                    amount_total := priceMinor base (normVotes v), paid := false },
                  normVotes_ge_one v, ?_⟩
          simp [hsc, h]

/-- Every server-side step either changes nothing, confirms one unpaid
transaction, inserts one transaction with positive votes, or rewrites only the
settings row. -/
theorem step_classification {db db' : DB} (h : Step db db') :
    db' = db
    ∨ (∃ sid trx, findTxn db sid = some trx ∧ trx.paid = false ∧
        db' = confirmTxn db sid trx)
    ∨ (∃ t, 1 ≤ t.votes ∧ db' = insertTxn db t)
    ∨ (∃ s, db' = { db with settings := s }) := by
  cases h with
  | checkout sc base db cid v cur s =>
    rcases createCheckout_state sc base db cid v cur s with h | ⟨t, ht, heq⟩
    · exact Or.inl h
    · exact Or.inr (Or.inr (Or.inl ⟨t, ht, heq⟩))
  | verify db sid sc st =>
    rcases verifySession_state db sid sc st with h | ⟨sid0, trx, _, hfind, hp, heq⟩
    · exact Or.inl h
    · exact Or.inr (Or.inl ⟨sid0, trx, hfind, hp, heq⟩)
  | hook secret sc db ev =>
    rcases webhook_state secret sc db ev with h | ⟨e, trx, _, hfind, hp, heq⟩
    · exact Or.inl h
    · exact Or.inr (Or.inl ⟨e.sessionId, trx, hfind, hp, heq⟩)
  | admin tok auth db q g =>
    rcases adminSettings_state tok auth db q g with h | ⟨s, heq⟩
    · exact Or.inl h
    · exact Or.inr (Or.inr (Or.inr ⟨s, heq⟩))

theorem confirmTxn_txns_ok {db : DB} (h : TxnsOK db) (sid : String) (trx : Txn) :
    TxnsOK (confirmTxn db sid trx) := by
  intro t ht
  simp only [confirmTxn, incTally, markPaid] at ht
  rcases List.mem_map.mp ht with ⟨t0, ht0, rfl⟩
  by_cases hs : t0.session_id = sid
  · simpa [hs] using h t0 ht0
  · simpa [hs] using h t0 ht0

theorem confirmTxn_tallies_ok {db : DB} (h : TalliesOK db) (sid : String) (trx : Txn)
    (hv : 0 ≤ trx.votes) : TalliesOK (confirmTxn db sid trx) := by
  intro c hc
  simp only [confirmTxn, incTally, markPaid] at hc
  rcases List.mem_map.mp hc with ⟨c0, hc0, rfl⟩
  have h0 := h c0 hc0
  by_cases hid : c0.id = trx.candidate_id
  · simp [hid]
    omega
  · simpa [hid] using h0

theorem confirmTxn_mono {db : DB} (sid : String) (trx : Txn) (hv : 0 ≤ trx.votes) :
    ∀ cand ∈ db.candidates, ∃ cand' ∈ (confirmTxn db sid trx).candidates,
      cand'.id = cand.id ∧ cand.tally ≤ cand'.tally := by
  intro c hc
  refine ⟨if c.id = trx.candidate_id then { c with tally := c.tally + trx.votes }
          else c, ?_, ?_, ?_⟩
  · simp only [confirmTxn, incTally, markPaid]
    exact List.mem_map_of_mem _ hc
  · by_cases hid : c.id = trx.candidate_id
    · simp [hid]
    · simp [hid]
  · by_cases hid : c.id = trx.candidate_id
    · simp [hid]
      omega
    · simp [hid]

theorem insertTxn_txns_ok {db : DB} (h : TxnsOK db) {t : Txn} (ht : 1 ≤ t.votes) :
    TxnsOK (insertTxn db t) := by
  intro t' ht'
  simp only [insertTxn] at ht'
  rcases List.mem_append.mp ht' with h1 | h1
  · exact h t' h1
  · simp only [List.mem_singleton] at h1
    subst h1
    exact ht

/-! ### Concrete database used to instantiate the theorems -/

/-- A small concrete state: two candidates, one paid and one unpaid
transaction. -/
def dbEx : DB :=
  { candidates := [{ id := 1, name := "Yes", tally := 5 },
                   { id := 2, name := "No", tally := 0 }],
    transactions := [{ session_id := "cs_a", candidate_id := 1, votes := 3,
                       currency := "USD", amount_total := 300, paid := true },
                     { session_id := "cs_b", candidate_id := 2, votes := 2,
                       currency := "EUR", amount_total := 200, paid := false }],
    settings := { question := "q0", glow := "#00ffff" } }

/-! ### Claim theorems -/

/-- C1: for a transaction whose paid flag is already true, both confirmer
paths — `GET /api/verify-session` and `POST /api/stripe/webhook` with that
session id — return their idempotent already-counted/received result and leave
the database completely unchanged, so repeated confirmation calls increment
the candidate's tally exactly once (namely, at the single false→true
transition). -/
theorem alreadyPaid_confirm_idempotent (db : DB) (sid : String) (trx : Txn)
    (hfind : findTxn db sid = some trx) (hpaid : trx.paid = true) :
    (∀ sc st, verifySession db (some sid) sc st = (.alreadyCounted, db)) ∧
    (∀ secret sc ty,
      (webhook secret sc db (some { type := ty, sessionId := sid })).2 = db) := by
  constructor
  · intro sc st
    unfold verifySession
    simp [hfind, hpaid]
  · intro secret sc ty
    unfold webhook
    by_cases hcfg : secretTruthy secret = false ∨ sc = false
    · simp [hcfg]
    · by_cases hty : ty = "checkout.session.completed"
      · simp [hcfg, hty, hfind, hpaid]
      · simp [hcfg, hty]

theorem alreadyPaid_confirm_idempotent_witness :
    (∀ sc st, verifySession dbEx (some "cs_a") sc st = (.alreadyCounted, dbEx)) ∧
    (∀ secret sc ty,
      (webhook secret sc dbEx (some { type := ty, sessionId := "cs_a" })).2 = dbEx) :=
  alreadyPaid_confirm_idempotent dbEx "cs_a"
    { session_id := "cs_a", candidate_id := 1, votes := 3,
      currency := "USD", amount_total := 300, paid := true }
    (by decide) (by decide)

/-- C2: on both confirmer paths, the state after the call is either exactly
the old state (nothing applied) or the state in which, as one unit, the found
unpaid transaction's paid flag is set and the referenced candidate's tally is
incremented by that transaction's votes (both applied). -/
theorem confirm_both_or_neither :
    (∀ db sidIn sc st,
      (verifySession db sidIn sc st).2 = db
      ∨ ∃ sid trx, sidIn = some sid ∧ findTxn db sid = some trx ∧ trx.paid = false ∧
          txnPaid (verifySession db sidIn sc st).2 sid = some true ∧
          tallyOf (verifySession db sidIn sc st).2 trx.candidate_id
            = (tallyOf db trx.candidate_id).map (fun t => t + trx.votes)) ∧
    (∀ secret sc db ev,
      (webhook secret sc db ev).2 = db
      ∨ ∃ e trx, ev = some e ∧ findTxn db e.sessionId = some trx ∧ trx.paid = false ∧
          txnPaid (webhook secret sc db ev).2 e.sessionId = some true ∧
          tallyOf (webhook secret sc db ev).2 trx.candidate_id
            = (tallyOf db trx.candidate_id).map (fun t => t + trx.votes)) := by
  constructor
  · intro db sidIn sc st
    rcases verifySession_state db sidIn sc st with h | ⟨sid, trx, hin, hfind, hp, heq⟩
    · exact Or.inl h
    · refine Or.inr ⟨sid, trx, hin, hfind, hp, ?_, ?_⟩
      · rw [heq]; exact txnPaid_confirmTxn db sid trx trx hfind
      · rw [heq]; exact tallyOf_confirmTxn db sid trx
  · intro secret sc db ev
    rcases webhook_state secret sc db ev with h | ⟨e, trx, hev, hfind, hp, heq⟩
    · exact Or.inl h
    · refine Or.inr ⟨e, trx, hev, hfind, hp, ?_, ?_⟩
      · rw [heq]; exact txnPaid_confirmTxn db e.sessionId trx trx hfind
      · rw [heq]; exact tallyOf_confirmTxn db e.sessionId trx

/-- C5: when the transaction is still unpaid and the provider reports the
session as not paid, the pull-path confirmer answers `{ ok:false, paid:false }`
and returns the ledger exactly as it was, so the call can be retried. -/
theorem unpaid_session_no_mutation (db : DB) (sid : String) (trx : Txn) (st : String)
    (hfind : findTxn db sid = some trx) (hpaid : trx.paid = false)
    (hst : st ≠ "paid") :
    verifySession db (some sid) true (some st) = (.notPaid, db) := by
  unfold verifySession
  simp [hfind, hpaid, hst]

theorem unpaid_session_no_mutation_witness :
    verifySession dbEx (some "cs_b") true (some "unpaid") = (.notPaid, dbEx) :=
  unpaid_session_no_mutation dbEx "cs_b"
    { session_id := "cs_b", candidate_id := 2, votes := 2,
      currency := "EUR", amount_total := 200, paid := false }
    "unpaid" (by decide) (by decide) (by decide)

/-- C6: with the webhook secret and payment client configured, a request whose
signature check (`stripe.webhooks.constructEvent` over the raw body) fails is
answered with the 400 `Webhook Error` response and the database is untouched. -/
theorem webhook_bad_signature_rejected (secret : Option String) (sc : Bool) (db : DB)
    (hsecret : secretTruthy secret = true) (hsc : sc = true) :
    webhook secret sc db none = (.sigError, db) := by
  unfold webhook
  simp [hsecret, hsc]

theorem webhook_bad_signature_rejected_witness :
    webhook (some "whsec_x") true dbEx none = (.sigError, dbEx) :=
  webhook_bad_signature_rejected (some "whsec_x") true dbEx (by decide) rfl

/-- C10: when the webhook secret or the payment client is not configured, the
push-path endpoint answers every request with the successful
`{ received:true, note:'webhook not configured' }` response — no signature is
ever checked — and the database is never mutated. -/
theorem webhook_unconfigured_accepts_all (secret : Option String) (sc : Bool)
    (db : DB) (h : secretTruthy secret = false ∨ sc = false) :
    ∀ ev, webhook secret sc db ev = (.receivedNotConfigured, db) := by
  intro ev
  unfold webhook
  simp [h]

theorem webhook_unconfigured_accepts_all_witness :
    webhook none true dbEx
        (some { type := "checkout.session.completed", sessionId := "cs_b" })
      = (.receivedNotConfigured, dbEx) :=
  webhook_unconfigured_accepts_all none true dbEx (Or.inl rfl)
    (some { type := "checkout.session.completed", sessionId := "cs_b" })

/-- Every supported currency code is a non-empty string fixed by uppercasing,
so backend normalization leaves it unchanged. -/
theorem supported_currency_norm :
    ∀ c ∈ supportedCurrencies, c ≠ "" ∧ toUpperStr c = c := by decide

/-- C3: with an existing candidate, a valid vote count `v ≥ 1` and a supported
currency, a checkout whose external session creation succeeds appends exactly
one transaction row with `amount_total = price-per-vote × v` and `paid=false`
and returns the session's redirect data; when the external session creation
throws, the handler answers the generic 500 and appends nothing. -/
theorem checkout_persists_exactly_one_pending_row (base : Int) (db : DB)
    (cid : Int) (cand : Candidate) (v : Int) (c : String) (s : StripeSession)
    (hcand : findCand db cid = some cand) (hv : 1 ≤ v)
    (hc : c ∈ supportedCurrencies) :
    createCheckout true base db (some cid) (some v) (some c) (some s)
      = (.success s.id s.url,
         insertTxn db { session_id := s.id, candidate_id := cand.id, votes := v,
                        currency := c, amount_total := base * v, paid := false }) ∧
    createCheckout true base db (some cid) (some v) (some c) none
      = (.serverError, db) := by
  have hnv : normVotes (some v) = v := by
    unfold normVotes
    simp [show (0:Int) < v by omega]
  have hcur : normCurrency (some c) = c := by
    rcases supported_currency_norm c hc with ⟨hne, hup⟩
    simp [normCurrency, hne, hup]
  have hpm : priceMinor base v = base * v := by
    unfold priceMinor
    rw [if_neg (by omega : ¬ v = 0), max_eq_right hv]
  constructor
  · unfold createCheckout
    simp [hcand, hnv, hcur, hpm]
  · unfold createCheckout
    simp [hcand]

theorem checkout_persists_exactly_one_pending_row_witness :
    (createCheckout true 100 dbEx (some 1) (some 3) (some "USD")
        (some { id := "cs_new", url := "https://pay.example/x" })
      = (.success "cs_new" "https://pay.example/x",
         insertTxn dbEx { session_id := "cs_new", candidate_id := 1, votes := 3,
                          currency := "USD", amount_total := 100 * 3,
                          paid := false })) ∧
    createCheckout true 100 dbEx (some 1) (some 3) (some "USD") none
      = (.serverError, dbEx) :=
  checkout_persists_exactly_one_pending_row 100 dbEx 1
    { id := 1, name := "Yes", tally := 5 } 3 "USD"
    { id := "cs_new", url := "https://pay.example/x" }
    (by decide) (by decide) (by decide)

/-- C4 counterexample: the backend checkout endpoint performs no currency
validation. With the unsupported code `"ZZZ"` and a successful external
session creation, the handler responds with the checkout redirect (not an
unsupported-currency error) and persists a transaction row, so the claim that
every such request is rejected before a session is created and before a row is
persisted is false at this input. -/
theorem backend_accepts_unsupported_currency :
    isValidCurrency "ZZZ" supportedCurrencies = false ∧
    (createCheckout true 100 dbEx (some 1) (some 2) (some "ZZZ")
        (some { id := "cs_z", url := "https://pay.example/z" })).1
      = CheckoutResp.success "cs_z" "https://pay.example/z" ∧
    (createCheckout true 100 dbEx (some 1) (some 2) (some "ZZZ")
        (some { id := "cs_z", url := "https://pay.example/z" })).2.transactions.length
      = dbEx.transactions.length + 1 := by
  refine ⟨by decide, rfl, rfl⟩

/-- C4 amended: the unsupported-currency rejection happens in the frontend,
before any request leaves the client: `createCheckout` in the React app shows
`'Unsupported currency.'` and sends nothing to the server, so no external
session is created and no transaction row is persisted for UI-initiated
checkouts; the backend endpoint itself does not validate the currency. -/
theorem frontend_rejects_unsupported_currency (cid : Int) (v : Option Int)
    (c : String) (h : isValidCurrency c supportedCurrencies = false) :
    createCheckoutFrontend (some cid) v c = .unsupportedCurrencyMessage := by
  unfold createCheckoutFrontend
  simp [h]

theorem frontend_rejects_unsupported_currency_witness :
    createCheckoutFrontend (some 1) (some 2) "ZZZ"
      = .unsupportedCurrencyMessage :=
  frontend_rejects_unsupported_currency 1 (some 2) "ZZZ" (by decide)

/-- C7: an invalid vote count — non-numeric (`parseInt`/`Number` yields `NaN`),
zero or negative — is normalized to 1 by both the frontend `normalizeVotes`
and the backend handler, and the checkout then proceeds with `votes = 1`. -/
theorem invalid_votes_normalized_to_one (vIn : Option Int)
    (h : vIn = none ∨ ∃ n, vIn = some n ∧ n ≤ 0) :
    normVotes vIn = 1 ∧ normalizeVotes vIn = 1 ∧
    ∀ (base : Int) (db : DB) (cid : Int) (cand : Candidate) (c : Option String)
      (s : StripeSession), findCand db cid = some cand →
      createCheckout true base db (some cid) vIn c (some s)
        = (.success s.id s.url,
           insertTxn db { session_id := s.id, candidate_id := cand.id, votes := 1,
                          currency := normCurrency c, amount_total := base * 1,
                          paid := false }) := by
  have h1 : normVotes vIn = 1 := by
    rcases h with rfl | ⟨n, rfl, hn⟩
    · rfl
    · unfold normVotes
      simp [show ¬ (0:Int) < n by omega]
  have h2 : normalizeVotes vIn = 1 := by
    rcases h with rfl | ⟨n, rfl, hn⟩
    · rfl
    · unfold normalizeVotes
      simp [show n < (1:Int) by omega]
  refine ⟨h1, h2, ?_⟩
  intro base db cid cand c s hcand
  unfold createCheckout
  rw [h1]
  simp [hcand, priceMinor]

theorem invalid_votes_normalized_to_one_witness :
    normVotes (some (-5)) = 1 ∧ normalizeVotes (some (-5)) = 1 ∧
    ∀ (base : Int) (db : DB) (cid : Int) (cand : Candidate) (c : Option String)
      (s : StripeSession), findCand db cid = some cand →
      createCheckout true base db (some cid) (some (-5)) c (some s)
        = (.success s.id s.url,
           insertTxn db { session_id := s.id, candidate_id := cand.id, votes := 1,
                          currency := normCurrency c, amount_total := base * 1,
                          paid := false }) :=
  invalid_votes_normalized_to_one (some (-5)) (Or.inr ⟨-5, rfl, by decide⟩)

/-- C8: an admin settings write with a missing or wrong bearer credential (or
with no server-side token configured) is answered 401 and changes nothing; an
authenticated write touches only the settings row, where each of `question`
and `glow` takes the supplied value if present and keeps its previous value if
absent. -/
theorem admin_settings_auth_and_partial_update (tok auth : String) (db : DB)
    (q g : Option String) :
    (¬(tok ≠ "" ∧ auth = "Bearer " ++ tok) →
        adminSettings tok auth db q g = (.unauthorized, db)) ∧
    ((tok ≠ "" ∧ auth = "Bearer " ++ tok) →
        (adminSettings tok auth db q g).1 = .ok ∧
        (adminSettings tok auth db q g).2.candidates = db.candidates ∧
        (adminSettings tok auth db q g).2.transactions = db.transactions ∧
        (adminSettings tok auth db q g).2.settings.question
          = q.getD db.settings.question ∧
        (adminSettings tok auth db q g).2.settings.glow
          = g.getD db.settings.glow) := by
  constructor
  · intro h
    have hcond : tok = "" ∨ auth ≠ "Bearer " ++ tok := by tauto
    unfold adminSettings
    rw [if_pos hcond]
  · intro h
    have hcond : ¬(tok = "" ∨ auth ≠ "Bearer " ++ tok) := by
      push_neg
      exact ⟨h.1, h.2⟩
    unfold adminSettings
    rw [if_neg hcond]
    exact ⟨rfl, rfl, rfl, rfl, rfl⟩

theorem admin_settings_auth_and_partial_update_witness :
    (¬("tok1" ≠ "" ∧ "Bearer tok1" = "Bearer " ++ "tok1") →
        adminSettings "tok1" "Bearer tok1" dbEx (some "newQ") none
          = (.unauthorized, dbEx)) ∧
    (("tok1" ≠ "" ∧ "Bearer tok1" = "Bearer " ++ "tok1") →
        (adminSettings "tok1" "Bearer tok1" dbEx (some "newQ") none).1 = .ok ∧
        (adminSettings "tok1" "Bearer tok1" dbEx (some "newQ") none).2.candidates
          = dbEx.candidates ∧
        (adminSettings "tok1" "Bearer tok1" dbEx (some "newQ") none).2.transactions
          = dbEx.transactions ∧
        (adminSettings "tok1" "Bearer tok1" dbEx (some "newQ") none).2.settings.question
          = (some "newQ").getD dbEx.settings.question ∧
        (adminSettings "tok1" "Bearer tok1" dbEx (some "newQ") none).2.settings.glow
          = Option.getD none dbEx.settings.glow) :=
  admin_settings_auth_and_partial_update "tok1" "Bearer tok1" dbEx (some "newQ") none

/-- C9: seeded candidates start with tally 0, and across every server-side
step (checkout, pull-path verify, push-path webhook, admin settings write) the
invariants "all transaction vote counts are ≥ 1" and "all tallies are ≥ 0" are
preserved and no candidate's tally ever decreases — the only mutation is the
confirmer's increment by a (positive) transaction vote count. -/
theorem tallies_start_zero_and_never_decrease :
    (∀ names, ∀ cand ∈ seedCandidates names, cand.tally = 0) ∧
    (∀ db db', Step db db' → TxnsOK db → TalliesOK db →
      TxnsOK db' ∧ TalliesOK db' ∧
      ∀ cand ∈ db.candidates, ∃ cand' ∈ db'.candidates,
        cand'.id = cand.id ∧ cand.tally ≤ cand'.tally) := by
  constructor
  · intro names cand hc
    rcases List.mem_map.mp hc with ⟨p, _, rfl⟩
    rfl
  · intro db db' hstep h1 h2
    rcases step_classification hstep with rfl | ⟨sid, trx, hfind, hp, rfl⟩
      | ⟨t, ht, rfl⟩ | ⟨s, rfl⟩
    · exact ⟨h1, h2, fun c hc => ⟨c, hc, rfl, le_refl _⟩⟩
    · have hv : 0 ≤ trx.votes := by
        have := h1 trx (List.mem_of_find?_eq_some hfind)
        omega
      exact ⟨confirmTxn_txns_ok h1 sid trx, confirmTxn_tallies_ok h2 sid trx hv,
             confirmTxn_mono sid trx hv⟩
    · exact ⟨insertTxn_txns_ok h1 ht, h2, fun c hc => ⟨c, hc, rfl, le_refl _⟩⟩
    · exact ⟨h1, h2, fun c hc => ⟨c, hc, rfl, le_refl _⟩⟩

theorem tallies_start_zero_and_never_decrease_witness :
    (∀ cand ∈ seedCandidates ["Yes", "No"], cand.tally = 0) ∧
    (TxnsOK (verifySession dbEx (some "cs_b") true (some "paid")).2 ∧
     TalliesOK (verifySession dbEx (some "cs_b") true (some "paid")).2 ∧
     ∀ cand ∈ dbEx.candidates,
       ∃ cand' ∈ (verifySession dbEx (some "cs_b") true (some "paid")).2.candidates,
         cand'.id = cand.id ∧ cand.tally ≤ cand'.tally) :=
  ⟨tallies_start_zero_and_never_decrease.1 ["Yes", "No"],
   tallies_start_zero_and_never_decrease.2 dbEx _
     (Step.verify dbEx (some "cs_b") true (some "paid"))
     (by unfold TxnsOK; decide) (by unfold TalliesOK; decide)⟩

end VoteApp
